import Mathlib

/-!
Shallow embedding of the go-kit string service (src/main.go) and verification of
its specification.

Modelling conventions:
* Go strings are modelled as Lean `String` (valid UTF-8 text); Go `len(s)` on a
  string is its UTF-8 byte count, modelled by `String.utf8ByteSize`.
* A Go `error` value is `Option String`: `none` is the nil error and `some msg`
  is an error whose `Error()` message is `msg` (the code builds errors only with
  `errors.New`).
* `context.Context` parameters are dropped: no implementation in the file reads
  the context.
* Wall-clock durations produced by `time.Since(begin)` are not computable from
  the inputs, so every call that observes a duration is parameterised by it:
  middleware methods return the (value, error) result together with a function
  from the elapsed duration to the list of emitted observability events.
* The logger and the Prometheus metrics are external sinks; what the code sends
  to them is modelled as explicit event values (`LogLine`, `MetricEvent`)
  returned by the middleware methods, in emission order.
-/

/-- A Go error value: `none` is nil, `some msg` an error with message `msg`. -/
abbrev GoError := Option String

/-- Models `strings.ToUpper` from the Go standard library: a per-character
uppercasing transform of the input (here `Char.toUpper` mapped over the
characters, which uppercases ASCII letters; no claim in this development
depends on the exact case mapping of non-ASCII characters, only on the
transform being applied per character). -/
def goToUpper (s : String) : String := { data := s.data.map Char.toUpper }

/-- Models Go `len(s)` on a string: the number of bytes of its UTF-8
encoding. -/
def goLen (s : String) : Nat := s.utf8ByteSize

/-- The `IStringService` interface from src/main.go: the two operations, each
returning a value and a Go error. -/
structure IStringService where
  Uppercase : String → String × GoError
  Count : String → Int × GoError

namespace stringService

/-- `stringService.Uppercase` from src/main.go: empty input yields the error
"Empty string" with an empty result, otherwise `strings.ToUpper` of the input
with a nil error. -/
def Uppercase (s : String) : String × GoError :=
  if s = "" then ("", some "Empty string")
  else (goToUpper s, none)

/-- `stringService.Count` from src/main.go: empty input yields -1 and the error
"Empty string", otherwise `len(s)` with a nil error. -/
def Count (s : String) : Int × GoError :=
  if s = "" then (-1, some "Empty string")
  else ((goLen s : Int), none)

end stringService

/-- The plain `stringService` value (a fieldless struct) packaged as an
`IStringService`. -/
def stringServiceImpl : IStringService :=
  { Uppercase := stringService.Uppercase, Count := stringService.Count }

/-- The `uppercaseRequest` struct: JSON field "s". -/
structure uppercaseRequest where
  S : String

deriving instance DecidableEq for uppercaseRequest

/-- The `uppercaseResponse` struct: JSON fields "v" and "err" (omitempty). -/
structure uppercaseResponse where
  V : String
  Err : String

deriving instance DecidableEq for uppercaseResponse

/-- The `countRequest` struct: JSON field "s". -/
structure countRequest where
  S : String

deriving instance DecidableEq for countRequest

/-- The `countResponse` struct: JSON fields "v" and "err" (omitempty). -/
structure countResponse where
  V : Int
  Err : String

deriving instance DecidableEq for countResponse

/-- `makeUppercaseEndpoint` from src/main.go: calls the service, and on error
returns the response carrying the error message with an empty value and a nil
transport error; on success the value with an empty error field. -/
def makeUppercaseEndpoint (svc : IStringService) (request : uppercaseRequest) :
    uppercaseResponse × GoError :=
  let r := svc.Uppercase request.S
  match r.2 with
  | some e => ({ V := "", Err := e }, none)
  | none => ({ V := r.1, Err := "" }, none)

/-- `makeCountEndpoint` from src/main.go: calls the service, and on error
returns the response carrying the error message with value -1 and a nil
transport error; on success the value with an empty error field. -/
def makeCountEndpoint (svc : IStringService) (request : countRequest) :
    countResponse × GoError :=
  let r := svc.Count request.S
  match r.2 with
  | some e => ({ V := -1, Err := e }, none)
  | none => ({ V := r.1, Err := "" }, none)

/-- A value appearing in a structured logfmt line: the code passes strings,
ints, error values and durations to `logger.Log`. -/
inductive LogVal
  | str (s : String)
  | int (n : Int)
  | err (e : GoError)
  | dur (took : Nat)

deriving instance DecidableEq for LogVal

/-- One structured log line: the key/value pairs passed to a single
`logger.Log` call, in order. -/
abbrev LogLine := List (String × LogVal)

/-- The `loggingMiddleware` struct from src/main.go: holds the wrapped service.
(The logger itself is an external sink; the emitted lines are returned as
values.) -/
structure loggingMiddleware where
  next : IStringService

/-- `loggingMiddleware.Uppercase` from src/main.go: delegates to the wrapped
service and, via `defer`, emits on every exit path exactly one log line with
keys method, input, output, err, took. The elapsed duration `took` is
environment-determined, so the emitted lines are a function of it. -/
def loggingMiddleware.Uppercase (mw : loggingMiddleware) (s : String) :
    (String × GoError) × (Nat → List LogLine) :=
  let r := mw.next.Uppercase s
  (r, fun took =>
    [[("method", LogVal.str "uppercase"), ("input", LogVal.str s),
      ("output", LogVal.str r.1), ("err", LogVal.err r.2),
      ("took", LogVal.dur took)]])

/-- `loggingMiddleware.Count` from src/main.go: delegates to the wrapped
service and, via `defer`, emits on every exit path exactly one log line with
keys method, input, n, took — the source passes no "err" key here. -/
def loggingMiddleware.Count (mw : loggingMiddleware) (s : String) :
    (Int × GoError) × (Nat → List LogLine) :=
  let r := mw.next.Count s
  (r, fun took =>
    [[("method", LogVal.str "count"), ("input", LogVal.str s),
      ("n", LogVal.int r.1), ("took", LogVal.dur took)]])

/-- Models `fmt.Sprint` applied to a Go bool: "true" or "false". -/
def goSprintBool (b : Bool) : String := if b then "true" else "false"

/-- A metric update sent to the Prometheus collectors: a counter `Add(1)` with
label values, a latency `Observe` with label values, or a count-result
`Observe` (no labels). The observed count result `float64(n)` is modelled by
the integer `n` itself (the conversion is exact for these magnitudes); the
observed latency in seconds is modelled by the abstract elapsed duration. -/
inductive MetricEvent
  | counterAdd (lvs : List String) (delta : Nat)
  | latencyObserve (lvs : List String) (seconds : Nat)
  | resultObserve (value : Int)

deriving instance DecidableEq for MetricEvent

/-- The `instrumentingMiddleware` struct from src/main.go: holds the wrapped
service. (The three metric collectors are external sinks; the emitted updates
are returned as values.) -/
structure instrumentingMiddleware where
  next : IStringService

/-- `instrumentingMiddleware.Uppercase` from src/main.go: delegates, and via
`defer` increments the request counter and observes the latency, both with
label values method=uppercase and error=`fmt.Sprint(err != nil)`. -/
def instrumentingMiddleware.Uppercase (mw : instrumentingMiddleware) (s : String) :
    (String × GoError) × (Nat → List MetricEvent) :=
  let r := mw.next.Uppercase s
  (r, fun took =>
    let lvs := ["method", "uppercase", "error", goSprintBool r.2.isSome]
    [MetricEvent.counterAdd lvs 1, MetricEvent.latencyObserve lvs took])

/-- `instrumentingMiddleware.Count` from src/main.go: delegates, and via
`defer` increments the request counter and observes the latency with label
values method=count and error="false" (the source hardcodes the string
"false"), then observes the returned count in the count-result distribution. -/
def instrumentingMiddleware.Count (mw : instrumentingMiddleware) (s : String) :
    (Int × GoError) × (Nat → List MetricEvent) :=
  let r := mw.next.Count s
  (r, fun took =>
    let lvs := ["method", "count", "error", "false"]
    [MetricEvent.counterAdd lvs 1, MetricEvent.latencyObserve lvs took,
     MetricEvent.resultObserve r.1])

/-- The (value, error) behaviour of a logging-wrapped service, viewed again as
an `IStringService` (the interface under which `main` composes the layers). -/
def loggingMiddleware.service (mw : loggingMiddleware) : IStringService :=
  { Uppercase := fun s => (mw.Uppercase s).1, Count := fun s => (mw.Count s).1 }

/-- The (value, error) behaviour of an instrumenting-wrapped service, viewed
again as an `IStringService`. -/
def instrumentingMiddleware.service (mw : instrumentingMiddleware) : IStringService :=
  { Uppercase := fun s => (mw.Uppercase s).1, Count := fun s => (mw.Count s).1 }

/-- The composition wired in `main`: the plain service wrapped by the logging
middleware, wrapped by the instrumenting middleware (instrumenting outermost). -/
def appService : IStringService :=
  instrumentingMiddleware.service
    { next := loggingMiddleware.service { next := stringServiceImpl } }

/-- A JSON value, for modelling the request bodies handled by the decode
functions. -/
inductive Json
  | null
  | bool (b : Bool)
  | num (n : Int)
  | str (s : String)
  | arr (elems : List Json)
  | obj (fields : List (String × Json))

/-- `decodeUppercaseRequest` from src/main.go. The JSON unmarshalling it calls
(Go encoding/json into a struct with one string field tagged "s") is modelled
from the library's documented semantics: an object whose "s" member is a JSON
string sets the field; an absent "s" member, a JSON-null "s" member, or a
top-level JSON null leave the field at the Go zero value, the empty string; a
member of any other type, or a non-object non-null body, is a decode error,
which the function propagates to the transport. -/
def decodeUppercaseRequest (body : Json) : Except String uppercaseRequest :=
  match body with
  | Json.null => Except.ok { S := "" }
  | Json.obj fields =>
    match List.lookup "s" fields with
    | none => Except.ok { S := "" }
    | some Json.null => Except.ok { S := "" }
    | some (Json.str v) => Except.ok { S := v }
    | some _ => Except.error "DecodeError"
  | _ => Except.error "DecodeError"

/-- `decodeCountRequest` from src/main.go, with the same modelled JSON
unmarshalling semantics as `decodeUppercaseRequest`. -/
def decodeCountRequest (body : Json) : Except String countRequest :=
  match body with
  | Json.null => Except.ok { S := "" }
  | Json.obj fields =>
    match List.lookup "s" fields with
    | none => Except.ok { S := "" }
    | some Json.null => Except.ok { S := "" }
    | some (Json.str v) => Except.ok { S := v }
    | some _ => Except.error "DecodeError"
  | _ => Except.error "DecodeError"

/-- Two calls of the same operation on the same input, in sequence. The
receiver `stringService` is a fieldless struct and its methods read only their
arguments, so the embedded operations are pure functions and the two calls are
literally the same application. -/
def callTwice {α : Type} (f : String → α) (s : String) : α × α := (f s, f s)

/-- Follows the SPEC's words, not the source: the "character length" of a
string, i.e. its number of Unicode characters. Used to compare the source's
`len`-based count against the spec's description. -/
def specCharLength (s : String) : Int := (s.length : Int)

/-- Recognises the count-result distribution updates among the metric events. -/
def isResultObserve : MetricEvent → Bool
  | MetricEvent.resultObserve _ => true
  | _ => false

/-! Helper lemmas (shared; none of these is a claim theorem). -/

/-- The composed application service and the plain service agree on Uppercase:
both middlewares delegate the computation unchanged. -/
theorem appService_Uppercase (s : String) :
    appService.Uppercase s = stringService.Uppercase s := rfl

/-- The composed application service and the plain service agree on Count. -/
theorem appService_Count (s : String) :
    appService.Count s = stringService.Count s := rfl

/-- A non-empty string has a positive UTF-8 byte length. -/
theorem utf8ByteSize_pos_of_ne_empty (s : String) (h : s ≠ "") :
    0 < s.utf8ByteSize := by
  cases s with
  | mk data =>
    cases data with
    | nil => exact absurd rfl h
    | cons c cs =>
      show 0 < String.utf8Len (c :: cs)
      have hc := Char.utf8Size_pos c
      simp only [String.utf8Len_cons]
      omega

/-! Claim theorems. -/

/-- C4: for every input string s and every wrapped Service implementation,
wrapping with the logging middleware and/or the instrumenting middleware
returns exactly the same (value, error) pair from Uppercase and from Count as
the unwrapped implementation does on s — including for the composition wired in
main (logging inside, instrumenting outside). -/
theorem C4_middleware_transparent (next : IStringService) (s : String) :
    ((loggingMiddleware.mk next).Uppercase s).1 = next.Uppercase s
    ∧ ((loggingMiddleware.mk next).Count s).1 = next.Count s
    ∧ ((instrumentingMiddleware.mk next).Uppercase s).1 = next.Uppercase s
    ∧ ((instrumentingMiddleware.mk next).Count s).1 = next.Count s
    ∧ (instrumentingMiddleware.service
        { next := loggingMiddleware.service { next := next } }).Uppercase s
        = next.Uppercase s
    ∧ (instrumentingMiddleware.service
        { next := loggingMiddleware.service { next := next } }).Count s
        = next.Count s :=
  ⟨rfl, rfl, rfl, rfl, rfl, rfl⟩

/-- C2 counterexample: on the failing Count call with input "" through the
logging middleware over the plain service, the wrapped call does fail (the
error is "Empty string"), yet the single emitted log line has keys method,
input, n, took only — no "err" key carries the error, contradicting the claim
that the Count log line includes the error when the wrapped call fails. -/
theorem C2_count_log_line_has_no_err_key :
    (((loggingMiddleware.mk stringServiceImpl).Count "").1).2 = some "Empty string"
    ∧ ((loggingMiddleware.mk stringServiceImpl).Count "").2 0 =
        [[("method", LogVal.str "count"), ("input", LogVal.str ""),
          ("n", LogVal.int (-1)), ("took", LogVal.dur 0)]]
    ∧ "err" ∉ List.map Prod.fst
        [("method", LogVal.str "count"), ("input", LogVal.str ""),
         ("n", LogVal.int (-1)), ("took", LogVal.dur 0)] := by
  refine ⟨rfl, rfl, by decide⟩

/-- C2 (amended): for every call to either operation through the logging
middleware, on every exit path (success or failure) exactly one structured log
line is emitted containing the operation name, the input, the output/result and
the elapsed duration; the Uppercase line additionally contains the error value,
while the Count line contains no error field even when the wrapped Count call
fails. -/
theorem C2_logging_one_line_per_call (next : IStringService) (s : String) (d : Nat) :
    ((loggingMiddleware.mk next).Uppercase s).2 d =
      [[("method", LogVal.str "uppercase"), ("input", LogVal.str s),
        ("output", LogVal.str (next.Uppercase s).1),
        ("err", LogVal.err (next.Uppercase s).2),
        ("took", LogVal.dur d)]]
    ∧ ((loggingMiddleware.mk next).Count s).2 d =
      [[("method", LogVal.str "count"), ("input", LogVal.str s),
        ("n", LogVal.int (next.Count s).1), ("took", LogVal.dur d)]] :=
  ⟨rfl, rfl⟩

/-- C3 counterexample: on the failing Count call with input "" through the
instrumenting middleware over the plain service, an error did occur, yet the
counter increment and the latency observation are labelled error="false"; no
event labelled error="true" is emitted, contradicting the claim that a failing
Count call is counted with error=true. -/
theorem C3_failing_count_labelled_false :
    (((instrumentingMiddleware.mk stringServiceImpl).Count "").1).2 ≠ none
    ∧ ((instrumentingMiddleware.mk stringServiceImpl).Count "").2 0 =
        [MetricEvent.counterAdd ["method", "count", "error", "false"] 1,
         MetricEvent.latencyObserve ["method", "count", "error", "false"] 0,
         MetricEvent.resultObserve (-1)]
    ∧ MetricEvent.counterAdd ["method", "count", "error", "true"] 1 ∉
        ((instrumentingMiddleware.mk stringServiceImpl).Count "").2 0 := by
  refine ⟨by decide, rfl, by decide⟩

/-- C3 (amended): for every call through the instrumenting middleware, the
request counter is incremented once and the latency observed once with the same
labels; on Uppercase the error label is the string of whether an error actually
occurred, but on Count the error label is always the hardcoded string "false",
regardless of whether the wrapped call failed. -/
theorem C3_instrumentation_labels (next : IStringService) (s : String) (d : Nat) :
    ((instrumentingMiddleware.mk next).Uppercase s).2 d =
      [MetricEvent.counterAdd
         ["method", "uppercase", "error", goSprintBool (next.Uppercase s).2.isSome] 1,
       MetricEvent.latencyObserve
         ["method", "uppercase", "error", goSprintBool (next.Uppercase s).2.isSome] d]
    ∧ ((instrumentingMiddleware.mk next).Count s).2 d =
      [MetricEvent.counterAdd ["method", "count", "error", "false"] 1,
       MetricEvent.latencyObserve ["method", "count", "error", "false"] d,
       MetricEvent.resultObserve (next.Count s).1] :=
  ⟨rfl, rfl⟩

/-- C7: every call to Count through the instrumenting middleware records into
the count-result distribution exactly one observation, whose value is the value
returned by the wrapped Count call at the time of return; in particular, on the
failing call with input "" over the plain service the call fails and the
recorded value is the sentinel -1. -/
theorem C7_count_result_observed (next : IStringService) (s : String) (d : Nat) :
    List.filter isResultObserve (((instrumentingMiddleware.mk next).Count s).2 d) =
      [MetricEvent.resultObserve (next.Count s).1]
    ∧ (((instrumentingMiddleware.mk stringServiceImpl).Count "").1).2 = some "Empty string"
    ∧ List.filter isResultObserve
        (((instrumentingMiddleware.mk stringServiceImpl).Count "").2 d) =
      [MetricEvent.resultObserve (-1)] :=
  ⟨rfl, rfl, rfl⟩

/-- C8: two identical calls to Uppercase (or to Count) return identical
(value, error) results: the service receiver is a fieldless struct whose
methods read only their argument, so the embedded operations are deterministic
pure functions with no hidden state across calls. -/
theorem C8_deterministic (s : String) :
    (callTwice stringService.Uppercase s).1 = (callTwice stringService.Uppercase s).2
    ∧ (callTwice stringService.Count s).1 = (callTwice stringService.Count s).2 :=
  ⟨rfl, rfl⟩

/-- C1 counterexample: for the non-empty input "é" (one character, two UTF-8
bytes) Count returns 2 with a nil error, but the character length of "é" is 1,
so Count does not return the character length; the endpoint response carries
v=2, not the character count. -/
theorem C1_count_not_char_length_on_multibyte :
    ("é" : String) ≠ ""
    ∧ stringService.Count "é" = (2, none)
    ∧ specCharLength "é" = 1
    ∧ (stringService.Count "é").1 ≠ specCharLength "é"
    ∧ makeCountEndpoint appService { S := "é" } = ({ V := 2, Err := "" }, none) := by
  refine ⟨by decide, by decide, by decide, by decide, rfl⟩

/-- C1 (amended): for every non-empty string s, the Count service operation
returns the UTF-8 byte length of s (which coincides with the character count
exactly when every character of s is single-byte) together with a nil error,
and the endpoint response carries that value in v with err empty. -/
theorem C1_count_returns_byte_length (s : String) (h : s ≠ "") :
    stringService.Count s = ((goLen s : Int), none)
    ∧ makeCountEndpoint appService { S := s } = ({ V := (goLen s : Int), Err := "" }, none) := by
  constructor
  · simp [stringService.Count, h]
  · simp [makeCountEndpoint, appService_Count, stringService.Count, h]

/-- C1 witness: the amended theorem applied at the concrete input "hello". -/
theorem C1_count_returns_byte_length_witness :
    ("hello" : String) ≠ ""
    ∧ stringService.Count "hello" = (5, none)
    ∧ makeCountEndpoint appService { S := "hello" } = ({ V := 5, Err := "" }, none) :=
  ⟨by decide, (C1_count_returns_byte_length "hello" (by decide)).1,
    (C1_count_returns_byte_length "hello" (by decide)).2⟩

/-- C5: Uppercase("") returns the empty string together with the error whose
message is "Empty string", and for every non-empty string s, Uppercase(s)
returns the uppercase transform of s (strings.ToUpper) with a nil error. -/
theorem C5_uppercase_behaviour :
    stringService.Uppercase "" = ("", some "Empty string")
    ∧ ∀ s : String, s ≠ "" → stringService.Uppercase s = (goToUpper s, none) := by
  refine ⟨rfl, fun s h => ?_⟩
  simp [stringService.Uppercase, h]

/-- C5 witness: the theorem applied at the concrete non-empty input "hello". -/
theorem C5_uppercase_behaviour_witness :
    ("hello" : String) ≠ ""
    ∧ stringService.Uppercase "hello" = ("HELLO", none) :=
  ⟨by decide,
    (C5_uppercase_behaviour.2 "hello" (by decide)).trans (by decide)⟩

/-- C9: the integer returned by Count is -1 exactly when the input is empty,
is at least 1 for every non-empty input, and is never 0. -/
theorem C9_count_range (s : String) :
    ((stringService.Count s).1 = -1 ↔ s = "")
    ∧ (s ≠ "" → 1 ≤ (stringService.Count s).1)
    ∧ (stringService.Count s).1 ≠ 0 := by
  by_cases h : s = ""
  · subst h
    refine ⟨by simp [stringService.Count], by simp, by simp [stringService.Count]⟩
  · have hpos := utf8ByteSize_pos_of_ne_empty s h
    have h1 : (1 : Int) ≤ (goLen s : Int) := by
      simp only [goLen]
      omega
    refine ⟨?_, fun _ => ?_, ?_⟩
    · simp only [stringService.Count, if_neg h]
      constructor
      · intro heq
        omega
      · intro heq
        exact absurd heq h
    · simp only [stringService.Count, if_neg h]
      exact h1
    · simp only [stringService.Count, if_neg h]
      omega

/-- C9 witness: the theorem applied at the concrete non-empty input "x". -/
theorem C9_count_range_witness :
    ("x" : String) ≠ "" ∧ 1 ≤ (stringService.Count "x").1 :=
  ⟨by decide, (C9_count_range "x").2.1 (by decide)⟩

/-- C6: for every request, each endpoint adapter returns a well-formed response
with a nil transport-level error; the response's err field is the wrapped
call's error message (empty when the error is nil) and its v field is the
result on success and the failure placeholder (empty string, resp. -1) on
failure; for the composed application service, err is non-empty exactly when
the operation failed. -/
theorem C6_endpoint_in_band_errors (svc : IStringService)
    (ureq : uppercaseRequest) (creq : countRequest) :
    (makeUppercaseEndpoint svc ureq).2 = none
    ∧ (makeCountEndpoint svc creq).2 = none
    ∧ (makeUppercaseEndpoint svc ureq).1.Err = ((svc.Uppercase ureq.S).2).getD ""
    ∧ (makeUppercaseEndpoint svc ureq).1.V =
        (if (svc.Uppercase ureq.S).2 = none then (svc.Uppercase ureq.S).1 else "")
    ∧ (makeCountEndpoint svc creq).1.Err = ((svc.Count creq.S).2).getD ""
    ∧ (makeCountEndpoint svc creq).1.V =
        (if (svc.Count creq.S).2 = none then (svc.Count creq.S).1 else -1)
    ∧ ((makeUppercaseEndpoint appService ureq).1.Err ≠ ""
        ↔ (appService.Uppercase ureq.S).2 ≠ none)
    ∧ ((makeCountEndpoint appService creq).1.Err ≠ ""
        ↔ (appService.Count creq.S).2 ≠ none) := by
  refine ⟨?_, ?_, ?_, ?_, ?_, ?_, ?_, ?_⟩
  · rcases h : (svc.Uppercase ureq.S).2 with _ | e <;>
      simp [makeUppercaseEndpoint, h]
  · rcases h : (svc.Count creq.S).2 with _ | e <;>
      simp [makeCountEndpoint, h]
  · rcases h : (svc.Uppercase ureq.S).2 with _ | e <;>
      simp [makeUppercaseEndpoint, h]
  · rcases h : (svc.Uppercase ureq.S).2 with _ | e <;>
      simp [makeUppercaseEndpoint, h]
  · rcases h : (svc.Count creq.S).2 with _ | e <;>
      simp [makeCountEndpoint, h]
  · rcases h : (svc.Count creq.S).2 with _ | e <;>
      simp [makeCountEndpoint, h]
  · by_cases h : ureq.S = "" <;>
      simp [makeUppercaseEndpoint, appService_Uppercase, stringService.Uppercase, h]
  · by_cases h : creq.S = "" <;>
      simp [makeCountEndpoint, appService_Count, stringService.Count, h]

/-- C10: a well-formed JSON body that omits the "s" member, such as the empty
object, decodes successfully into a request whose s is the empty string, and
feeding that request to the endpoints over the composed application service
yields the in-band empty-input error response (v="" resp. v=-1 with
err="Empty string") with a nil transport error, not a decode failure. -/
theorem C10_missing_field_decodes_to_zero_value :
    decodeUppercaseRequest (Json.obj []) = Except.ok { S := "" }
    ∧ decodeCountRequest (Json.obj []) = Except.ok { S := "" }
    ∧ makeUppercaseEndpoint appService { S := "" } =
        ({ V := "", Err := "Empty string" }, none)
    ∧ makeCountEndpoint appService { S := "" } =
        ({ V := -1, Err := "Empty string" }, none) :=
  ⟨rfl, rfl, rfl, rfl⟩
